import Mathlib

/-!
Verification of the credential & session authentication core of a
multi-tenant SaaS starter.  The definitions below are a shallow embedding
of the TypeScript sources: the Prisma-backed store is modelled as an
explicit record of table contents threaded through each operation, time
is a natural number of milliseconds since the epoch, and each HTTP
handler is a pure function from its inputs (request body fields, cookie,
store state, current time, freshly generated identifiers) to a result,
an updated store, and the list of cookies it set.
-/

namespace Auth

/-- A user row (Prisma `User` model), as selected by the auth endpoints.
`passwordHash` is nullable; `name`, `image` and `tenantId` are nullable. -/
structure User where
  id : Nat
  email : String
  name : Option String
  image : Option String
  passwordHash : Option String
  tenantId : Option Nat
  onboardingCompleted : Bool
  emailVerified : Bool
  createdAt : Nat
deriving DecidableEq

/-- A session row (Prisma `Session` model). `expires` is an absolute
timestamp in milliseconds. -/
structure Session where
  id : Nat
  sessionToken : String
  userId : Nat
  expires : Nat
deriving DecidableEq

/-- The persistent store: the `User` and `Session` tables. -/
structure DB where
  users : List User
  sessions : List Session
deriving DecidableEq

/-- `server/utils/customAuth.ts`: `SESSION_MAX_AGE = 30 * 24 * 60 * 60`
(30 days in seconds). -/
def SESSION_MAX_AGE : Nat := 30 * 24 * 60 * 60

/-- JavaScript falsiness of an optional string (`!x` is true exactly when
the value is absent/undefined or the empty string). -/
def optFalsy : Option String → Bool
  | none => true
  | some s => s.isEmpty

/-- The safe projection of a user used by the sign-in response and by the
session lookup's `select` clause: every `User` column except
`passwordHash` and `createdAt`. -/
structure SafeUser where
  id : Nat
  email : String
  name : Option String
  image : Option String
  tenantId : Option Nat
  onboardingCompleted : Bool
  emailVerified : Bool
deriving DecidableEq

/-- Project a user row to its safe (hash-free) form. -/
def toSafeUser (u : User) : SafeUser :=
  ⟨u.id, u.email, u.name, u.image, u.tenantId, u.onboardingCompleted, u.emailVerified⟩

/-- `getSession`'s return shape: the session row joined (`include`) with
the safe projection of its owning user.  The user is `none` only if the
session points at no existing user row (impossible under referential
integrity, but the model keeps the join honest). -/
structure SessionWithUser where
  id : Nat
  sessionToken : String
  userId : Nat
  expires : Nat
  user : Option SafeUser
deriving DecidableEq

/-- From `server/utils/customAuth.ts` (`verifyPassword`): delegates to
bcryptjs `compare`.  The bcrypt primitive itself is a third-party
dependency, passed here as an explicit function parameter. -/
def verifyPassword (compare : String → String → Bool) (password h : String) : Bool :=
  compare password h

/-- Modelled from the spec: the bcryptjs `compare` primitive is not part
of this repository's sources.  The spec states that `verify` recomputes
the hash using the salt and cost embedded in the digest, and returns
false — never throws — for malformed digests.  It is modelled as a total
Boolean function: `wellFormed` recognises digests that embed a valid
algorithm/cost/salt encoding, `raw` is the (arbitrary, total) comparison
on well-formed digests, and a malformed digest compares as false. -/
def bcryptCompare (wellFormed : String → Bool) (raw : String → String → Bool)
    (password digest : String) : Bool :=
  if wellFormed digest then raw password digest else false

/-- From `server/utils/customAuth.ts` (`createSession`): mint a session
row with `expires = now + SESSION_MAX_AGE * 1000` and persist it.  The
random token and the row id assigned by the store are passed in
explicitly.  Returns `(sessionToken, expires)` and the updated store. -/
def createSession (db : DB) (now : Nat) (userId : Nat) (newToken : String) (newId : Nat) :
    (String × Nat) × DB :=
  let expires := now + SESSION_MAX_AGE * 1000
  ((newToken, expires),
   { db with sessions := db.sessions ++ [⟨newId, newToken, userId, expires⟩] })

/-- From `server/utils/customAuth.ts` (`getSession`): look up a session by
exact token (`findUnique`), joined with the safe projection of its user.
If the row exists and `expires < now` the row is deleted (by id) as a
side effect and `null` is returned; otherwise the joined session is
returned.  Returns the lookup result and the (possibly updated) store. -/
def getSession (db : DB) (now : Nat) (sessionToken : String) :
    Option SessionWithUser × DB :=
  match db.sessions.find? (fun s => s.sessionToken == sessionToken) with
  | none => (none, db)
  | some s =>
    if s.expires < now then
      (none, { db with sessions := db.sessions.filter (fun x => x.id != s.id) })
    else
      (some ⟨s.id, s.sessionToken, s.userId, s.expires,
        (db.users.find? (fun u => u.id == s.userId)).map toSafeUser⟩, db)

/-- From `server/utils/customAuth.ts` (`deleteSession`): `deleteMany`
over all rows matching the token (idempotent). -/
def deleteSession (db : DB) (sessionToken : String) : DB :=
  { db with sessions := db.sessions.filter (fun s => s.sessionToken != sessionToken) }

/-- From `server/utils/customAuth.ts` (`deleteUserSessions`): remove
every session owned by a user. -/
def deleteUserSessions (db : DB) (userId : Nat) : DB :=
  { db with sessions := db.sessions.filter (fun s => s.userId != userId) }

/-- From `server/utils/customAuth.ts` (`cleanupExpiredSessions`): delete
every row with `expires < now`, returning the count removed. -/
def cleanupExpiredSessions (db : DB) (now : Nat) : Nat × DB :=
  let kept := db.sessions.filter (fun s => !(s.expires < now))
  (db.sessions.length - kept.length, { db with sessions := kept })

/-- An HTTP error as produced by `createError`. -/
structure HttpError where
  statusCode : Nat
  message : String
deriving DecidableEq

deriving instance DecidableEq for Except

/-- A `setCookie` call with its options.  Clearing the cookie is a set
with empty value and `maxAge = 0`. -/
structure CookieSet where
  name : String
  value : String
  httpOnly : Bool
  secure : Bool
  sameSite : String
  maxAge : Nat
  path : String
deriving DecidableEq

/-- The observable outcome of one handler invocation: the response or
thrown error, the store state afterwards, and the cookies it set. -/
structure HandlerOut (α : Type) where
  result : Except HttpError α
  db : DB
  cookies : List CookieSet

/-- A whitespace character, as matched by the regex class in the sign-up
email check (ASCII fragment of JavaScript's character class). -/
def isSpaceChar (c : Char) : Bool :=
  c == ' ' || c == '\t' || c == '\n' || c == '\r' || c == '\x0b' || c == '\x0c'

/-- A character admitted by the regex class used around the separators of
the sign-up email check: anything but whitespace and the at sign. -/
def isEmailChar (c : Char) : Bool :=
  !isSpaceChar c && c != '@'

/-- Split a character list at its first at sign, if any. -/
def splitAtSign : List Char → Option (List Char × List Char)
  | [] => none
  | c :: cs =>
    if c = '@' then some ([], cs)
    else (splitAtSign cs).map (fun p => (c :: p.1, p.2))

/-- The part after the at sign must match the regex fragment
matching one or more admissible characters, a literal dot, then one or
more admissible characters: all characters admissible and some dot at an
interior position (the dot itself is an admissible character). -/
def domainMatches (l : List Char) : Bool :=
  l.all isEmailChar && ((l.drop 1).dropLast.contains '.')

/-- The email-format regex of the sign-up endpoint over
a string: a nonempty run of admissible characters, an at sign, then a
domain part matched by `domainMatches`.  Any second at sign fails
`domainMatches`, so the whole string contains exactly one. -/
def validEmail (s : String) : Bool :=
  match splitAtSign s.toList with
  | none => false
  | some (lpart, dpart) =>
    !lpart.isEmpty && lpart.all isEmailChar && domainMatches dpart

/-- Sign-up response: `select` of the created user —
id, email, name, emailVerified, onboardingCompleted, createdAt. -/
structure SignUpUser where
  id : Nat
  email : String
  name : Option String
  emailVerified : Bool
  onboardingCompleted : Bool
  createdAt : Nat
deriving DecidableEq

/-- Sign-up success body. -/
structure SignUpResp where
  success : Bool
  user : SignUpUser
deriving DecidableEq

/-- The sign-up endpoint (`src/unnamed/part_000`, first handler).
`hashFn` models the bcrypt `hashPassword` primitive, `newId` the row id
assigned by the store, `now` the creation timestamp. -/
def signupHandler (hashFn : String → String) (email password name : Option String)
    (db : DB) (now : Nat) (newId : Nat) : HandlerOut SignUpResp :=
  if optFalsy email || optFalsy password then
    ⟨.error ⟨400, "Email and password are required"⟩, db, []⟩
  else
    let e := email.getD ""
    let p := password.getD ""
    if !validEmail e then
      ⟨.error ⟨400, "Invalid email format"⟩, db, []⟩
    else if p.length < 8 then
      ⟨.error ⟨400, "Password must be at least 8 characters long"⟩, db, []⟩
    else
      match db.users.find? (fun u => u.email == e) with
      | some _ => ⟨.error ⟨400, "User with this email already exists"⟩, db, []⟩
      | none =>
        let newUser : User :=
          { id := newId, email := e
            name := if optFalsy name then none else name
            image := none, passwordHash := some (hashFn p), tenantId := none
            onboardingCompleted := false, emailVerified := false, createdAt := now }
        ⟨.ok ⟨true, ⟨newId, e, newUser.name, false, false, now⟩⟩,
         { db with users := db.users ++ [newUser] }, []⟩

/-- Sign-in success body: session metadata and the user minus the hash. -/
structure SignInSession where
  sessionToken : String
  expires : Nat
deriving DecidableEq

/-- Sign-in success response. -/
structure SignInResp where
  success : Bool
  session : SignInSession
  user : SafeUser
deriving DecidableEq

/-- The sign-in endpoint (`server/api/auth/signin.ts`).  `verify` models
the bcrypt compare primitive; `newToken` the freshly generated random
token; `newId` the session row id; `isProd` whether `NODE_ENV` is
production (controls the cookie's secure flag). -/
def signinHandler (verify : String → String → Bool) (email password : Option String)
    (db : DB) (now : Nat) (newToken : String) (newId : Nat) (isProd : Bool) :
    HandlerOut SignInResp :=
  if optFalsy email || optFalsy password then
    ⟨.error ⟨400, "Email and password are required"⟩, db, []⟩
  else
    let e := email.getD ""
    let p := password.getD ""
    match db.users.find? (fun u => u.email == e) with
    | none => ⟨.error ⟨401, "Invalid email or password"⟩, db, []⟩
    | some user =>
      if optFalsy user.passwordHash then
        ⟨.error ⟨401, "Invalid email or password"⟩, db, []⟩
      else if !(verifyPassword verify p (user.passwordHash.getD "")) then
        ⟨.error ⟨401, "Invalid email or password"⟩, db, []⟩
      else
        let r := createSession db now user.id newToken newId
        ⟨.ok ⟨true, ⟨r.1.1, r.1.2⟩, toSafeUser user⟩, r.2,
         [⟨"auth.session_token", newToken, true, isProd, "lax", 30 * 24 * 60 * 60, "/"⟩]⟩

/-- Session metadata as returned by get-session and requireAuth. -/
structure SessionMeta where
  id : Nat
  sessionToken : String
  expires : Nat
deriving DecidableEq

/-- Get-session response body: both fields null when no valid session. -/
structure GetSessionResp where
  session : Option SessionMeta
  user : Option SafeUser
deriving DecidableEq

/-- The get-session endpoint (`src/unnamed/part_000`, second handler).
Reads the token from the `auth.session_token` cookie (`none` when the
cookie is absent). -/
def getSessionHandler (cookieToken : Option String) (db : DB) (now : Nat)
    (isProd : Bool) : HandlerOut GetSessionResp :=
  if optFalsy cookieToken then
    ⟨.ok ⟨none, none⟩, db, []⟩
  else
    let r := getSession db now (cookieToken.getD "")
    match r.1 with
    | none =>
      ⟨.ok ⟨none, none⟩, r.2,
       [⟨"auth.session_token", "", true, isProd, "lax", 0, "/"⟩]⟩
    | some s =>
      ⟨.ok ⟨some ⟨s.id, s.sessionToken, s.expires⟩, s.user⟩, r.2, []⟩

/-- Sign-out success body. -/
structure SignOutResp where
  success : Bool
  message : String
deriving DecidableEq

/-- The sign-out endpoint (`src/utils/onboarding.ts`, second handler).
`storeFail` models the `deleteSession` store call throwing with the given
message (`none` means the delete succeeds); the catch block clears the
cookie and rethrows as a 500 whose message is the error's message, or the
generic text when that message is empty.  When the cookie is absent the
delete is skipped entirely. -/
def signoutHandler (cookieToken : Option String) (db : DB)
    (storeFail : Option String) (isProd : Bool) : HandlerOut SignOutResp :=
  let clear : CookieSet := ⟨"auth.session_token", "", true, isProd, "lax", 0, "/"⟩
  if optFalsy cookieToken then
    ⟨.ok ⟨true, "Signed out successfully"⟩, db, [clear]⟩
  else
    match storeFail with
    | some m =>
      ⟨.error ⟨500, if m.isEmpty then "Failed to sign out" else m⟩, db, [clear]⟩
    | none =>
      ⟨.ok ⟨true, "Signed out successfully"⟩,
       deleteSession db (cookieToken.getD ""), [clear]⟩

/-- requireAuth's success value: session metadata plus the safe user. -/
structure AuthOk where
  session : SessionMeta
  user : SafeUser
deriving DecidableEq

/-- `server/utils/requireAuth.ts` (`requireAuth`): throws 401 when no
token cookie is present; looks the session up, and on a missing session
or missing joined user clears the cookie and throws 401; otherwise
returns session metadata and the user. -/
def requireAuth (cookieToken : Option String) (db : DB) (now : Nat)
    (isProd : Bool) : HandlerOut AuthOk :=
  if optFalsy cookieToken then
    ⟨.error ⟨401, "Unauthorized - No session token"⟩, db, []⟩
  else
    let r := getSession db now (cookieToken.getD "")
    let clear : CookieSet := ⟨"auth.session_token", "", true, isProd, "lax", 0, "/"⟩
    match r.1 with
    | none => ⟨.error ⟨401, "Unauthorized - Invalid or expired session"⟩, r.2, [clear]⟩
    | some s =>
      match s.user with
      | none => ⟨.error ⟨401, "Unauthorized - Invalid or expired session"⟩, r.2, [clear]⟩
      | some u => ⟨.ok ⟨⟨s.id, s.sessionToken, s.expires⟩, u⟩, r.2, []⟩

/-- `server/utils/requireAuth.ts` (`getOptionalAuth`): runs `requireAuth`
inside try/catch, returning `null` instead of propagating the thrown
error.  Side effects performed before the throw (cookie clearing, lazy
session deletion) persist. -/
def getOptionalAuth (cookieToken : Option String) (db : DB) (now : Nat)
    (isProd : Bool) : Option AuthOk × DB × List CookieSet :=
  let r := requireAuth cookieToken db now isProd
  match r.result with
  | .ok v => (some v, r.db, r.cookies)
  | .error _ => (none, r.db, r.cookies)

/-! Concrete fixtures used by witnesses and counterexamples. -/

/-- A concrete user with a password hash, used by witnesses. -/
def alice : User :=
  ⟨7, "a@b.com", some "Alice", none, some "hashA", none, false, false, 0⟩

/-- A store holding `alice` and one of her sessions expiring at t = 100. -/
def db1 : DB := ⟨[alice], [⟨1, "tok", 7, 100⟩]⟩

/-- A session list found by token has, after removing the found row by id,
no further row matching that token, provided ids and tokens are pairwise
distinct (the store's unique indexes). -/
theorem find?_filter_erased_token {l : List Session} {tok : String} {s : Session}
    (hwf : l.Pairwise (fun a b => a.id ≠ b.id ∧ a.sessionToken ≠ b.sessionToken))
    (hfind : l.find? (fun x => x.sessionToken == tok) = some s) :
    (l.filter (fun x => x.id != s.id)).find? (fun x => x.sessionToken == tok) = none := by
  rw [List.find?_eq_none]
  intro x hx hxtok
  rw [List.mem_filter] at hx
  obtain ⟨hxl, hxid⟩ := hx
  have hsl : s ∈ l := List.mem_of_find?_eq_some hfind
  have hstok := List.find?_some hfind
  have hxs : x ≠ s := by
    intro h
    rw [h] at hxid
    simp at hxid
  have hsym : Symmetric (fun a b : Session => a.id ≠ b.id ∧ a.sessionToken ≠ b.sessionToken) :=
    fun a b h => ⟨h.1.symm, h.2.symm⟩
  have hr := hwf.forall hsym hxl hsl hxs
  apply hr.2
  have hxtok' : x.sessionToken = tok := by simpa using hxtok
  have hstok' : s.sessionToken = tok := by simpa using hstok
  rw [hxtok', hstok']

/-- C7: `verify(plaintext, digest)` is a total Boolean function — in the
embedding it always yields `true` or `false` (never throws) — and for a
malformed digest it returns `false` rather than raising. -/
theorem verifyPassword_total_and_malformed_false (wellFormed : String → Bool)
    (raw : String → String → Bool) (password digest : String) :
    (verifyPassword (bcryptCompare wellFormed raw) password digest = true ∨
     verifyPassword (bcryptCompare wellFormed raw) password digest = false) ∧
    (wellFormed digest = false →
      verifyPassword (bcryptCompare wellFormed raw) password digest = false) := by
  constructor
  · cases h : verifyPassword (bcryptCompare wellFormed raw) password digest
    · right; rfl
    · left; rfl
  · intro hmal
    simp [verifyPassword, bcryptCompare, hmal]

/-- Witness for C7 at a concrete malformed digest. -/
theorem verifyPassword_total_and_malformed_false_witness :
    verifyPassword (bcryptCompare (fun _ => false) (fun _ _ => true)) "pw" "garbage" = false :=
  (verifyPassword_total_and_malformed_false (fun _ => false) (fun _ _ => true)
    "pw" "garbage").2 rfl

/-- C1: every sign-in failing because the email is not registered, the
registered user's password hash is null/empty, or the password does not
verify, produces the very same error value: status 401 with message
"Invalid email or password", so any two such failures are byte-identical
and do not reveal whether the account exists. -/
theorem signin_failures_identical (verify : String → String → Bool)
    (email password : Option String) (db : DB) (now : Nat) (newToken : String)
    (newId : Nat) (isProd : Bool)
    (hemail : optFalsy email = false) (hpw : optFalsy password = false)
    (hfail : db.users.find? (fun u => u.email == email.getD "") = none ∨
      ∃ u, db.users.find? (fun u => u.email == email.getD "") = some u ∧
        (optFalsy u.passwordHash = true ∨
         verify (password.getD "") (u.passwordHash.getD "") = false)) :
    (signinHandler verify email password db now newToken newId isProd).result =
      Except.error ⟨401, "Invalid email or password"⟩ := by
  unfold signinHandler
  rw [hemail, hpw]
  rcases hfail with h | ⟨u, hu, hcase⟩
  · simp [h]
  · simp only [Bool.or_self, Bool.false_eq_true, if_false, hu]
    cases hhash : optFalsy u.passwordHash
    · rcases hcase with h1 | h1
      · rw [h1] at hhash; cases hhash
      · simp [hhash, verifyPassword, h1]
    · simp [hhash]

/-- Witness for C1: a sign-in against a store without the email. -/
theorem signin_failures_identical_witness :
    (signinHandler (fun _ _ => false) (some "nobody@x.com") (some "anything")
      db1 0 "t" 2 false).result = Except.error ⟨401, "Invalid email or password"⟩ :=
  signin_failures_identical (fun _ _ => false) (some "nobody@x.com") (some "anything")
    db1 0 "t" 2 false rfl rfl (Or.inl (by decide))

/-- C3 counterexample: signing up with an email that already exists
throws status 400 ("User with this email already exists"), not the 409
Conflict the claim states. -/
theorem signup_duplicate_counterexample :
    (signupHandler (fun s => s) (some "a@b.com") (some "password123") none db1 0 2).result
      = Except.error ⟨400, "User with this email already exists"⟩ ∧ (400 : Nat) ≠ 409 := by
  decide

/-- C3 amended: for every sign-up request whose email already belongs to
an existing user (and which passes the preceding field, format and
length checks), the operation fails with status 400 and message
"User with this email already exists", and creates no user: the store is
unchanged. -/
theorem signup_duplicate_spec (hashFn : String → String)
    (email password name : Option String) (db : DB) (now newId : Nat)
    (hemail : optFalsy email = false) (hpw : optFalsy password = false)
    (hvalid : validEmail (email.getD "") = true)
    (hlen : ((password.getD "").length < 8) = False)
    (u : User) (hexists : db.users.find? (fun x => x.email == email.getD "") = some u) :
    (signupHandler hashFn email password name db now newId).result =
      Except.error ⟨400, "User with this email already exists"⟩ ∧
    (signupHandler hashFn email password name db now newId).db = db := by
  unfold signupHandler
  rw [hemail, hpw]
  simp [hvalid, hlen, hexists]

/-- Witness for C3's amended theorem at a concrete duplicate email. -/
theorem signup_duplicate_spec_witness :
    (signupHandler (fun s => s) (some "a@b.com") (some "password123") (some "Al") db1 9 2).db
      = db1 :=
  (signup_duplicate_spec (fun s => s) (some "a@b.com") (some "password123")
    (some "Al") db1 9 2 rfl rfl (by decide) (by decide) alice (by decide)).2

/-- C2 counterexample: at the boundary `now = expires` the code keeps
the session valid.  With a session whose `expires` is 100, `get` at
`now = 100` returns the joined session even though `now < expires`
fails, so "returns ... exactly when now < expires" is false. -/
theorem getSession_boundary_counterexample :
    (getSession db1 100 "tok").1 =
      some ⟨1, "tok", 7, 100, some (toSafeUser alice)⟩ ∧ ¬ (100 < 100) := by
  decide

/-- C2 amended: `get(token)` returns the session joined with the safe
projection of the owning user exactly when the row exists and
`¬(expires < now)` (i.e. `now ≤ expires`; the strict boundary of the
claim is wrong); if the row exists and `expires < now` it deletes the
row as a side effect and returns null, and a subsequent `get` with the
same token returns null without any error.  The hypothesis is the
store's unique indexes on session id and token. -/
theorem getSession_spec (db : DB) (now : Nat) (tok : String)
    (hwf : db.sessions.Pairwise (fun a b => a.id ≠ b.id ∧ a.sessionToken ≠ b.sessionToken)) :
    (db.sessions.find? (fun s => s.sessionToken == tok) = none →
      getSession db now tok = (none, db)) ∧
    (∀ s, db.sessions.find? (fun s => s.sessionToken == tok) = some s →
      (s.expires < now →
        (getSession db now tok).1 = none ∧
        (getSession db now tok).2 =
          { db with sessions := db.sessions.filter (fun x => x.id != s.id) } ∧
        (getSession (getSession db now tok).2 now tok).1 = none) ∧
      (¬ s.expires < now →
        getSession db now tok =
          (some ⟨s.id, s.sessionToken, s.userId, s.expires,
            (db.users.find? (fun u => u.id == s.userId)).map toSafeUser⟩, db))) := by
  constructor
  · intro h
    unfold getSession
    rw [h]
  · intro s hfind
    constructor
    · intro hexp
      have hdel : getSession db now tok =
          (none, { db with sessions := db.sessions.filter (fun x => x.id != s.id) }) := by
        unfold getSession
        rw [hfind]
        simp [hexp]
      refine ⟨by rw [hdel], by rw [hdel], ?_⟩
      rw [hdel]
      unfold getSession
      rw [find?_filter_erased_token hwf hfind]
    · intro hexp
      unfold getSession
      rw [hfind]
      simp [hexp]

/-- Witness for C2's amended theorem: `db1`'s session (expires = 100) is
returned at `now = 100`, deleted at `now = 101`, and a repeated lookup
still returns null. -/
theorem getSession_spec_witness :
    (getSession db1 100 "tok" =
      (some ⟨1, "tok", 7, 100, some (toSafeUser alice)⟩, db1)) ∧
    (getSession db1 101 "tok").1 = none ∧
    (getSession (getSession db1 101 "tok").2 101 "tok").1 = none := by
  have h := (getSession_spec db1 100 "tok" (by decide)).2 ⟨1, "tok", 7, 100⟩ (by decide)
  have h' := (getSession_spec db1 101 "tok" (by decide)).2 ⟨1, "tok", 7, 100⟩ (by decide)
  exact ⟨h.2 (by decide), (h'.1 (by decide)).1, (h'.1 (by decide)).2.2⟩

/-- C4 counterexample: when a session-token cookie is present and the
underlying delete throws (modelled by `storeFail`), sign-out clears the
cookie but reports a 500 error, not success. -/
theorem signout_failure_counterexample :
    (signoutHandler (some "tok") db1 (some "db down") false).result =
      Except.error ⟨500, "db down"⟩ := by
  decide

/-- C4 amended: every invocation of sign-out clears the session cookie
(empty value, Max-Age 0); it reports success whenever no session-token
cookie is present or the deletion succeeds, but when the underlying
delete throws the caller receives a 500 error (the cookie is still
cleared). -/
theorem signout_spec (cookieToken : Option String) (db : DB)
    (storeFail : Option String) (isProd : Bool) :
    ((signoutHandler cookieToken db storeFail isProd).cookies =
      [⟨"auth.session_token", "", true, isProd, "lax", 0, "/"⟩]) ∧
    (optFalsy cookieToken = true ∨ storeFail = none →
      (signoutHandler cookieToken db storeFail isProd).result =
        Except.ok ⟨true, "Signed out successfully"⟩) ∧
    (optFalsy cookieToken = false → ∀ m, storeFail = some m →
      (signoutHandler cookieToken db storeFail isProd).result =
        Except.error ⟨500, if m.isEmpty then "Failed to sign out" else m⟩) := by
  refine ⟨?_, ?_, ?_⟩
  · unfold signoutHandler
    cases h : optFalsy cookieToken
    · simp only [Bool.false_eq_true, if_false]
      cases storeFail <;> rfl
    · rfl
  · intro hok
    unfold signoutHandler
    rcases hok with h | h
    · simp [h]
    · subst h
      cases hc : optFalsy cookieToken <;> simp [hc]
  · intro hc m hm
    unfold signoutHandler
    subst hm
    simp [hc]

/-- Witness for C4's amended theorem: no cookie present — success and the
cookie is cleared anyway. -/
theorem signout_spec_witness :
    ((signoutHandler none db1 none false).cookies =
      [⟨"auth.session_token", "", true, false, "lax", 0, "/"⟩]) ∧
    (signoutHandler none db1 none false).result =
      Except.ok ⟨true, "Signed out successfully"⟩ :=
  ⟨(signout_spec none db1 none false).1,
   (signout_spec none db1 none false).2.1 (Or.inl rfl)⟩

/-- C6 counterexample: a get-session request with no session-token
cookie returns `(null, null)` but sets no cookie at all — the claimed
unconditional cookie clearing does not happen in the no-cookie case. -/
theorem getSessionHandler_nocookie_counterexample :
    (getSessionHandler none db1 0 false).result = Except.ok ⟨none, none⟩ ∧
    (getSessionHandler none db1 0 false).cookies = [] := by
  decide

/-- C6 amended: get-session returns `(null, null)` whenever the cookie
is absent, the token unknown, or the session expired; it clears the
session cookie only when a token was present but the lookup failed —
with no cookie it returns the nulls without setting any cookie. -/
theorem getSessionHandler_spec (cookieToken : Option String) (db : DB)
    (now : Nat) (isProd : Bool) :
    (optFalsy cookieToken = true →
      getSessionHandler cookieToken db now isProd = ⟨Except.ok ⟨none, none⟩, db, []⟩) ∧
    (optFalsy cookieToken = false →
      (getSession db now (cookieToken.getD "")).1 = none →
      (getSessionHandler cookieToken db now isProd).result = Except.ok ⟨none, none⟩ ∧
      (getSessionHandler cookieToken db now isProd).cookies =
        [⟨"auth.session_token", "", true, isProd, "lax", 0, "/"⟩]) := by
  constructor
  · intro h
    unfold getSessionHandler
    simp [h]
  · intro hc hget
    unfold getSessionHandler
    simp [hc, hget]

/-- Witness for C6's amended theorem: an unknown token is present — nulls
are returned and the cookie is cleared. -/
theorem getSessionHandler_spec_witness :
    (getSessionHandler (some "unknown") db1 0 false).result = Except.ok ⟨none, none⟩ ∧
    (getSessionHandler (some "unknown") db1 0 false).cookies =
      [⟨"auth.session_token", "", true, false, "lax", 0, "/"⟩] :=
  (getSessionHandler_spec (some "unknown") db1 0 false).2 rfl (by decide)

/-- JSON leaf values appearing in the auth responses' user objects. -/
inductive JsonVal where
  | str : String → JsonVal
  | num : Nat → JsonVal
  | bool : Bool → JsonVal
  | null : JsonVal
deriving DecidableEq

/-- Serialization of a nullable string column. -/
def optStrVal : Option String → JsonVal
  | none => .null
  | some s => .str s

/-- Serialization of a nullable reference column. -/
def optNatVal : Option Nat → JsonVal
  | none => .null
  | some n => .num n

/-- The key/value pairs of the safe user object returned by sign-in and
joined by the session lookup: exactly the selected columns. -/
def safeUserFields (u : SafeUser) : List (String × JsonVal) :=
  [("id", .num u.id), ("email", .str u.email), ("name", optStrVal u.name),
   ("image", optStrVal u.image), ("tenantId", optNatVal u.tenantId),
   ("onboardingCompleted", .bool u.onboardingCompleted),
   ("emailVerified", .bool u.emailVerified)]

/-- The key/value pairs of the user object returned by sign-up: exactly
the selected columns of the created row. -/
def signUpUserFields (u : SignUpUser) : List (String × JsonVal) :=
  [("id", .num u.id), ("email", .str u.email), ("name", optStrVal u.name),
   ("emailVerified", .bool u.emailVerified),
   ("onboardingCompleted", .bool u.onboardingCompleted),
   ("createdAt", .num u.createdAt)]

/-- C5: no success response of sign-up, sign-in or get-session contains
a `passwordHash` key: the user objects they return serialize to key sets
that exclude the password hash. -/
theorem responses_never_contain_passwordHash
    (hashFn : String → String) (verify : String → String → Bool)
    (e1 p1 n1 e2 p2 cookieToken : Option String)
    (db : DB) (now newId : Nat) (newToken : String) (isProd : Bool) :
    (∀ r, (signupHandler hashFn e1 p1 n1 db now newId).result = Except.ok r →
      "passwordHash" ∉ (signUpUserFields r.user).map Prod.fst) ∧
    (∀ r, (signinHandler verify e2 p2 db now newToken newId isProd).result = Except.ok r →
      "passwordHash" ∉ (safeUserFields r.user).map Prod.fst) ∧
    (∀ r su, (getSessionHandler cookieToken db now isProd).result = Except.ok r →
      r.user = some su → "passwordHash" ∉ (safeUserFields su).map Prod.fst) := by
  refine ⟨?_, ?_, ?_⟩
  · intro r _
    simp only [signUpUserFields, List.map]
    decide
  · intro r _
    simp only [safeUserFields, List.map]
    decide
  · intro r su _ _
    simp only [safeUserFields, List.map]
    decide

/-- Witness for C5 at a concrete successful sign-up. -/
theorem responses_never_contain_passwordHash_witness :
    "passwordHash" ∉
      (signUpUserFields (⟨2, "n@x.com", none, false, false, 0⟩ : SignUpUser)).map Prod.fst :=
  (responses_never_contain_passwordHash (fun s => s) (fun _ _ => true)
    (some "n@x.com") (some "password123") none none none none ⟨[], []⟩ 0 2 "t" false).1
    ⟨true, ⟨2, "n@x.com", none, false, false, 0⟩⟩ (by decide)

/-- C8: a successful sign-in appends exactly one session row — carrying
the freshly generated token, the authenticated user's id and
`expires = now + 30 days` (`SESSION_MAX_AGE * 1000` milliseconds) — and
writes nothing else: the user table and all pre-existing session rows
are unchanged. -/
theorem signin_success_frame (verify : String → String → Bool)
    (email password : Option String) (db : DB) (now : Nat) (newToken : String)
    (newId : Nat) (isProd : Bool) (u : User)
    (hemail : optFalsy email = false) (hpw : optFalsy password = false)
    (hfind : db.users.find? (fun x => x.email == email.getD "") = some u)
    (hhash : optFalsy u.passwordHash = false)
    (hverify : verify (password.getD "") (u.passwordHash.getD "") = true) :
    (signinHandler verify email password db now newToken newId isProd).result =
      Except.ok ⟨true, ⟨newToken, now + SESSION_MAX_AGE * 1000⟩, toSafeUser u⟩ ∧
    (signinHandler verify email password db now newToken newId isProd).db.users = db.users ∧
    (signinHandler verify email password db now newToken newId isProd).db.sessions =
      db.sessions ++ [⟨newId, newToken, u.id, now + SESSION_MAX_AGE * 1000⟩] := by
  unfold signinHandler createSession
  rw [hemail, hpw]
  simp [hfind, hhash, verifyPassword, hverify]

/-- Witness for C8: alice signs in against `db1` at t = 5. -/
theorem signin_success_frame_witness :
    (signinHandler (fun _ _ => true) (some "a@b.com") (some "password123")
        db1 5 "newtok" 2 false).db.sessions =
      db1.sessions ++ [⟨2, "newtok", 7, 5 + SESSION_MAX_AGE * 1000⟩] :=
  (signin_success_frame (fun _ _ => true) (some "a@b.com") (some "password123")
    db1 5 "newtok" 2 false alice rfl rfl (by decide) (by decide) rfl).2.2

/-- Case enumeration for sign-up: either the store is untouched, or the
handler returned a success. -/
theorem signup_db_cases (hashFn : String → String)
    (email password name : Option String) (db : DB) (now newId : Nat) :
    (signupHandler hashFn email password name db now newId).db = db ∨
    ∃ r, (signupHandler hashFn email password name db now newId).result = Except.ok r := by
  simp only [signupHandler]
  split
  · left; rfl
  · split
    · left; rfl
    · split
      · left; rfl
      · split
        · left; rfl
        · right; exact ⟨_, rfl⟩

/-- C9: whenever sign-up fails — missing fields, bad email format, short
password, or an already-registered email — it performs no write: every
check precedes the single user-creation write, so the store is unchanged
on every error. -/
theorem signup_error_no_write (hashFn : String → String)
    (email password name : Option String) (db : DB) (now newId : Nat) :
    ∀ e, (signupHandler hashFn email password name db now newId).result = Except.error e →
      (signupHandler hashFn email password name db now newId).db = db := by
  intro e h
  rcases signup_db_cases hashFn email password name db now newId with hdb | ⟨r, hr⟩
  · exact hdb
  · rw [hr] at h
    cases h

/-- Witness for C9: a short password leaves the store unchanged. -/
theorem signup_error_no_write_witness :
    (signupHandler (fun s => s) (some "n@x.com") (some "short") none db1 0 2).db = db1 :=
  signup_error_no_write (fun s => s) (some "n@x.com") (some "short") none db1 0 2
    ⟨400, "Password must be at least 8 characters long"⟩ (by decide)

/-- Case enumeration for requireAuth's result: a success, or one of its
two 401 errors. -/
theorem requireAuth_result_cases (cookieToken : Option String) (db : DB)
    (now : Nat) (isProd : Bool) :
    (∃ v, (requireAuth cookieToken db now isProd).result = Except.ok v) ∨
    (requireAuth cookieToken db now isProd).result =
      Except.error ⟨401, "Unauthorized - No session token"⟩ ∨
    (requireAuth cookieToken db now isProd).result =
      Except.error ⟨401, "Unauthorized - Invalid or expired session"⟩ := by
  simp only [requireAuth]
  split
  · right; left; rfl
  · split
    · right; right; rfl
    · split
      · right; right; rfl
      · left; exact ⟨_, rfl⟩

/-- C10: `getOptionalAuth` never throws — it yields `some` exactly the
value `requireAuth` returns when a valid session exists, yields `none`
exactly when `requireAuth` throws, every error `requireAuth` can throw
has status 401 (Unauthorized), and the side effects (store state,
cookies) are those of `requireAuth`. -/
theorem getOptionalAuth_spec (cookieToken : Option String) (db : DB)
    (now : Nat) (isProd : Bool) :
    (∀ v, (getOptionalAuth cookieToken db now isProd).1 = some v ↔
        (requireAuth cookieToken db now isProd).result = Except.ok v) ∧
    ((getOptionalAuth cookieToken db now isProd).1 = none ↔
        ∃ e, (requireAuth cookieToken db now isProd).result = Except.error e) ∧
    (∀ e, (requireAuth cookieToken db now isProd).result = Except.error e →
        e.statusCode = 401) ∧
    (getOptionalAuth cookieToken db now isProd).2.1 =
      (requireAuth cookieToken db now isProd).db ∧
    (getOptionalAuth cookieToken db now isProd).2.2 =
      (requireAuth cookieToken db now isProd).cookies := by
  refine ⟨?_, ?_, ?_, ?_, ?_⟩
  · intro v
    unfold getOptionalAuth
    cases h : (requireAuth cookieToken db now isProd).result <;> simp [h]
  · unfold getOptionalAuth
    cases h : (requireAuth cookieToken db now isProd).result <;> simp [h]
  · intro e h
    rcases requireAuth_result_cases cookieToken db now isProd with ⟨v, hv⟩ | hv | hv <;>
      rw [hv] at h
    · cases h
    · cases h; rfl
    · cases h; rfl
  · unfold getOptionalAuth
    cases h : (requireAuth cookieToken db now isProd).result <;> simp [h]
  · unfold getOptionalAuth
    cases h : (requireAuth cookieToken db now isProd).result <;> simp [h]

/-- Witness for C10: with no cookie, `requireAuth` throws 401 and
`getOptionalAuth` returns null instead. -/
theorem getOptionalAuth_spec_witness :
    (getOptionalAuth none db1 0 false).1 = none :=
  ((getOptionalAuth_spec none db1 0 false).2.1).mpr
    ⟨⟨401, "Unauthorized - No session token"⟩, by decide⟩

end Auth
